import Mathlib

/-!
Verification of the UniUnity content-management backend (blog posts + site
configuration with password-gated admin authentication) and its client-side
admin store.

The repository contains several near-duplicate Express/Mongoose server
variants.  Where their behaviour diverges we embed each variant separately:
  * `V1` — the first server in `src/backend/server.js` (lines 1-172);
  * `V2` — the second server in `src/backend/server.js` (lines 173-335),
    whose `/api/config` handler coincides with the hardened `P2` one;
  * `V0` — `src/unnamed/part_000` (the most minimal variant);
  * `P1` — `src/unnamed/part_001` (the `require`-based variant with a
    hardcoded `defaultConfig` fallback);
  * `P2` — `src/unnamed/part_002` (the most hardened variant);
  * the client state store from `src/unnamed/part_003`.

Modelling conventions:
  * bcrypt is modelled by an abstract `Hash` type: `bhash` is injective by
    construction and `bcompare p h` succeeds exactly when `h` is the hash of
    `p`; comparing against an absent (`none`) stored value fails, matching
    `bcrypt.compare(p, '')` resolving to `false` on the empty non-hash string.
  * JSON request bodies with optional keys become structures of `Option`
    fields; a `none` field is an absent key.  JavaScript truthiness of a
    string-valued field is `strTruthy` (absent and empty string are falsy).
  * A Mongoose update object `$set`s each of its defined top-level keys and
    drops `undefined` ones, so the singleton-config upsert is `setFields`:
    per top-level key, a supplied value replaces the stored one wholesale and
    an absent one leaves it unchanged.  Unknown keys (`currentPassword`) are
    stripped by the strict schema and never stored.
  * Mongo document ids are `Nat`; a collection is a `List`.
  * Time is an abstract `Nat` parameter `now`.
-/

/-- Model of a bcrypt hash: an opaque wrapper of the preimage, injective by
constructor injectivity. -/
structure Hash where
  pw : String
deriving DecidableEq, Repr

/-- `bcrypt.hash(p, 10)` — modelled as the injective constructor. -/
def bhash (p : String) : Hash := ⟨p⟩

/-- `bcrypt.compare(p, h)` for a stored real hash `h`. -/
def bcompare (p : String) (h : Hash) : Bool := h == bhash p

/-- `bcrypt.compare(p, stored || '')`: an absent stored value compares as the
empty string, which is not a valid bcrypt hash, so the comparison fails. -/
def bcompareOpt (p : String) (h : Option Hash) : Bool :=
  match h with
  | some hv => bcompare p hv
  | none => false

/-- JavaScript truthiness of an optional string: `undefined` and `""` are
falsy. -/
def strTruthy (o : Option String) : Bool := !(o.getD "" == "")

/-- Nested `banner` object of the SiteConfig schema. -/
structure BannerCfg where
  heading : Option String
  subtext : Option String
deriving DecidableEq, Repr

/-- Nested `seo` object of the SiteConfig schema (part_001 also carries
`ogImage`; in the other schemas the field is simply never set). -/
structure SeoCfg where
  title : Option String
  description : Option String
  ogImage : Option String
deriving DecidableEq, Repr

/-- Nested `homepageAd` object of the SiteConfig schema. -/
structure AdCfg where
  text : Option String
  image : Option String
deriving DecidableEq, Repr

/-- The singleton SiteConfig document.  `adminPassword` holds a bcrypt hash
when set. -/
structure SiteConfig where
  title : Option String
  favicon : Option String
  banner : Option BannerCfg
  seo : Option SeoCfg
  homepageAd : Option AdCfg
  adminUsername : Option String
  adminPassword : Option Hash
deriving DecidableEq, Repr

/-- The document a fresh upsert starts from, and also the serialisation of the
empty JSON object `\x7b\x7d` that `GET /api/config` returns when no document
exists (undefined keys are dropped from the JSON). -/
def emptyConfig : SiteConfig :=
  { title := none, favicon := none, banner := none, seo := none
    homepageAd := none, adminUsername := none, adminPassword := none }

/-- JSON body of `POST /api/config`: every key optional.  `adminPassword` and
`currentPassword` are plaintext candidate passwords. -/
structure ConfigBody where
  title : Option String
  favicon : Option String
  banner : Option BannerCfg
  seo : Option SeoCfg
  homepageAd : Option AdCfg
  adminUsername : Option String
  adminPassword : Option String
  currentPassword : Option String
deriving DecidableEq, Repr

/-- `$set` semantics for one key: a defined new value replaces the stored one,
an `undefined` one is stripped from the update and the stored value stays. -/
def pick {α : Type} (new old : Option α) : Option α :=
  match new with
  | some v => some v
  | none => old

/-- The update object `\x7b ...configData, adminUsername, adminPassword: pw \x7d`
applied to the current document `old` (or to the empty document on upsert).
`pw` is the value the handler computed for the `adminPassword` key. -/
def setFields (old : SiteConfig) (b : ConfigBody) (pw : Option Hash) : SiteConfig :=
  { title := pick b.title old.title
    favicon := pick b.favicon old.favicon
    banner := pick b.banner old.banner
    seo := pick b.seo old.seo
    homepageAd := pick b.homepageAd old.homepageAd
    adminUsername := pick b.adminUsername old.adminUsername
    adminPassword := pick pw old.adminPassword }

/-- Outcome of `POST /api/config` in the gated variants: `ok` carries the
updated document (the response and, the config being a singleton, the new
store), `unauthorized` is the 401 response with the store unchanged. -/
inductive UpdateResult where
  | ok (cfg : SiteConfig)
  | unauthorized
deriving DecidableEq, Repr

/-- `POST /api/config` of part_002 (identical logic in server.js lines
302-319): if a document exists and a new `adminPassword` is supplied (truthy),
`currentPassword || ''` must bcrypt-verify against the stored
`adminPassword || ''`, else 401; the upsert then `$set`s the supplied fields,
hashing a truthy new password and otherwise carrying the previous hash. -/
def postConfigP2 (cur : Option SiteConfig) (b : ConfigBody) : UpdateResult :=
  match cur with
  | some c =>
    if strTruthy b.adminPassword then
      if bcompareOpt (b.currentPassword.getD "") c.adminPassword then
        UpdateResult.ok (setFields c b (some (bhash (b.adminPassword.getD ""))))
      else
        UpdateResult.unauthorized
    else
      UpdateResult.ok (setFields c b c.adminPassword)
  | none =>
    if strTruthy b.adminPassword then
      UpdateResult.ok (setFields emptyConfig b (some (bhash (b.adminPassword.getD ""))))
    else
      UpdateResult.ok (setFields emptyConfig b none)

/-- `POST /api/config` of the first server.js variant (lines 148-160) and of
part_000: no gate, and the `adminPassword` key is always set to
`bcrypt.hash(adminPassword || '', 10)` — even when no new password was
supplied, in which case the stored hash is overwritten by the hash of the
empty string. -/
def postConfigV1 (cur : Option SiteConfig) (b : ConfigBody) : SiteConfig :=
  setFields (cur.getD emptyConfig) b (some (bhash (b.adminPassword.getD "")))

/-- `GET /api/config` of server.js (both variants) and part_002:
`res.json(config || \x7b\x7d)` — the stored document, or the empty object when
none exists. -/
def getConfigP2 (cur : Option SiteConfig) : SiteConfig :=
  match cur with
  | some c => c
  | none => emptyConfig

/-- The hardcoded `defaultConfig` constant of part_001 (lines 85-91). -/
def defaultConfigP1 : SiteConfig :=
  { title := some "UniUnity.space"
    favicon := some "/favicon.ico"
    banner := some { heading := some "Future-Proof Growth", subtext := some "AI solutions" }
    seo := some { title := some "UniUnity - Tech Solutions"
                  description := some "AI and development services"
                  ogImage := some "https://example.com/og.jpg" }
    homepageAd := some { text := some "Transform with AI"
                         image := some "https://example.com/ad.jpg" }
    adminUsername := none
    adminPassword := none }

/-- `GET /api/config` of part_001 (lines 45-48):
`Config.findOne() || \x7b ...defaultConfig \x7d`. -/
def getConfigP1 (cur : Option SiteConfig) : SiteConfig :=
  match cur with
  | some c => c
  | none => defaultConfigP1

/-- The Admin collection: documents `\x7b email, password \x7d` with the
password field holding a bcrypt hash, in insertion order. -/
abbrev AdminColl : Type := List (String × Hash)

/-- The startup seed IIFE (server.js lines 38-50): if `countDocuments(\x7b
email: 'admin' \x7d)` is zero, create the admin document with the hash of the
fixed default password. -/
def seedAdmins (admins : AdminColl) : AdminColl :=
  if admins.any (fun a => a.1 == "admin") then admins
  else admins ++ [("admin", bhash "UniUnity2025!")]

/-- Instrumented outcome of `POST /api/auth`: the HTTP status and whether the
handler performed the `Admin.findOne` lookup. -/
structure AuthOutcome where
  status : Nat
  lookedUp : Bool
deriving DecidableEq, Repr

/-- `POST /api/auth` of the first server.js variant (lines 52-64).  There is
no missing-field check: the lookup always runs.  Mongoose strips an
`undefined` value from the query filter, so a missing username makes
`findOne(\x7b email: username \x7d)` into `findOne(\x7b\x7d)`, returning the
first admin document; `bcrypt.compare` with a missing password rejects, and
the catch block answers 500. -/
def authV1 (admins : AdminColl) (username password : Option String) : AuthOutcome :=
  let admin : Option (String × Hash) :=
    match username with
    | some u => admins.find? (fun a => a.1 == u)
    | none => admins.head?
  match admin with
  | some a =>
    match password with
    | some p => if bcompare p a.2 then ⟨200, true⟩ else ⟨401, true⟩
    | none => ⟨500, true⟩
  | none => ⟨401, true⟩

/-- `POST /api/auth` of part_002 (lines 64-81): a falsy username or password
is answered 400 before any lookup; otherwise as in the other variants. -/
def authP2 (admins : AdminColl) (username password : Option String) : AuthOutcome :=
  if !strTruthy username || !strTruthy password then ⟨400, false⟩
  else
    match admins.find? (fun a => a.1 == username.getD "") with
    | some a => if bcompare (password.getD "") a.2 then ⟨200, true⟩ else ⟨401, true⟩
    | none => ⟨401, true⟩

/-- Combined server-side store relevant to authentication and configuration:
the Admin collection and the singleton Config document. -/
structure ServerState where
  admins : AdminColl
  config : Option SiteConfig
deriving DecidableEq, Repr

/-- The part_002 `POST /api/config` acting on the combined state: the Admin
collection is never touched by this handler; `none` is the 401 outcome. -/
def postConfigP2State (s : ServerState) (b : ConfigBody) : Option ServerState :=
  match postConfigP2 s.config b with
  | UpdateResult.ok c => some { admins := s.admins, config := some c }
  | UpdateResult.unauthorized => none

/-- A BlogPost document.  `mongoId` stands for the Mongo `_id`; the text
fields are optional because the first server.js variant saves documents with
missing fields. -/
structure Blog where
  mongoId : Nat
  title : Option String
  content : Option String
  seoTitle : Option String
  seoDescription : Option String
  createdAt : Nat
  status : String
deriving DecidableEq, Repr

/-- First document whose `_id` matches, in insertion order
(`Blog.findById...`). -/
def findById (blogs : List Blog) (i : Nat) : Option Blog :=
  blogs.find? (fun b => b.mongoId == i)

/-- Removal of the first document whose `_id` matches
(`Blog.findByIdAndDelete`). -/
def eraseFirstById : List Blog → Nat → List Blog
  | [], _ => []
  | b :: bs, i => if b.mongoId == i then bs else b :: eraseFirstById bs i

/-- Number of documents in the collection carrying a given `_id`; Mongo keeps
this at most 1 (`_id` is the unique primary key). -/
def countById (blogs : List Blog) (i : Nat) : Nat :=
  (blogs.filter (fun b => b.mongoId == i)).length

/-- `POST /api/blogs` of part_002 (lines 117-130): 400 when `title` or
`content` is falsy, otherwise save with schema defaults (`createdAt` = now,
`status` = published) and answer 201.  Returns the HTTP status and the new
collection; the created document is the appended one. -/
def postBlogP2 (blogs : List Blog) (freshId : Nat)
    (title content seoTitle seoDescription : Option String) (now : Nat) :
    Nat × List Blog :=
  if !strTruthy title || !strTruthy content then (400, blogs)
  else
    (201, blogs ++ [{ mongoId := freshId, title := title, content := content
                      seoTitle := seoTitle, seoDescription := seoDescription
                      createdAt := now, status := "published" }])

/-- `POST /api/blogs` of the first server.js variant (lines 96-105): no
validation (the schema marks no field required), `res.json(blog)` answers 200,
and the document is saved even with `title`/`content` missing. -/
def postBlogV1 (blogs : List Blog) (freshId : Nat)
    (title content seoTitle seoDescription : Option String) (now : Nat) :
    Nat × List Blog :=
  (200, blogs ++ [{ mongoId := freshId, title := title, content := content
                    seoTitle := seoTitle, seoDescription := seoDescription
                    createdAt := now, status := "published" }])

/-- `DELETE /api/blogs/:id` of part_002 (lines 148-158) and server.js (lines
119-128): 404 when `findByIdAndDelete` found nothing, else 200. -/
def deleteBlogP2 (blogs : List Blog) (i : Nat) : Nat × List Blog :=
  match findById blogs i with
  | some _ => (200, eraseFirstById blogs i)
  | none => (404, blogs)

/-- `DELETE /api/blogs/:id` of part_000 (line 92): the result of
`findByIdAndDelete` is discarded and the handler always answers 200
`Blog deleted`. -/
def deleteBlogV0 (blogs : List Blog) (i : Nat) : Nat × List Blog :=
  (200, eraseFirstById blogs i)

/-! ## Client state store (src/unnamed/part_003, lines 744-886) -/

/-- Client-side `SiteConfig` type: all five top-level keys present, nested
objects fully populated (as in the store's `defaultConfig`). -/
structure ClientBanner where
  heading : String
  subtext : String
deriving DecidableEq, Repr

/-- Client-side `seo` object. -/
structure ClientSeo where
  title : String
  description : String
  ogImage : String
deriving DecidableEq, Repr

/-- Client-side `homepageAd` object. -/
structure ClientAd where
  text : String
  image : String
deriving DecidableEq, Repr

/-- Client-side site configuration held in the store. -/
structure ClientConfig where
  title : String
  favicon : String
  banner : ClientBanner
  seo : ClientSeo
  homepageAd : ClientAd
deriving DecidableEq, Repr

/-- `Partial<SiteConfig>`: any subset of the top-level keys. -/
structure ClientConfigPatch where
  title : Option String
  favicon : Option String
  banner : Option ClientBanner
  seo : Option ClientSeo
  homepageAd : Option ClientAd
deriving DecidableEq, Repr

/-- The spread `\x7b ...currentConfig, ...config \x7d`: a shallow merge in
which each top-level key supplied by the patch replaces the prior value
wholesale. -/
def spreadMerge (cur : ClientConfig) (p : ClientConfigPatch) : ClientConfig :=
  { title := p.title.getD cur.title
    favicon := p.favicon.getD cur.favicon
    banner := p.banner.getD cur.banner
    seo := p.seo.getD cur.seo
    homepageAd := p.homepageAd.getD cur.homepageAd }

/-- A client-side blog post as held in `blogPosts`: posts created through the
client carry an `id` string, while documents that came back from the Mongo
backend may carry only a `_id` (here `mongoId`) and no `id` field. -/
structure ClientPost where
  id : Option String
  mongoId : Option String
  title : String
  content : String
deriving DecidableEq, Repr

/-- The slice of the zustand store the mutations below touch. -/
structure ClientState where
  config : ClientConfig
  blogPosts : List ClientPost
  loading : Bool
  error : Option String
deriving DecidableEq, Repr

/-- `updateConfig` success path (part_003 lines 818-829): compute
`updatedConfig = \x7b ...currentConfig, ...config \x7d`, POST it, then
`set(\x7b config: updatedConfig, loading: false \x7d)`.  The server's response
document `serverResp` is never read. -/
def updateConfigOk (s : ClientState) (p : ClientConfigPatch)
    (serverResp : Option ClientConfig) : ClientState :=
  let updatedConfig := spreadMerge s.config p
  { s with config := updatedConfig, loading := false, error := none }

/-- `deleteBlogPost` success path (part_003 lines 863-875): after the DELETE
request resolves, keep exactly the posts whose `id` is not strictly equal to
the argument (`p.id !== id`; an absent `id` is `undefined`, never strictly
equal to a string). -/
def deleteBlogPostOk (s : ClientState) (argId : String) : ClientState :=
  { s with blogPosts := s.blogPosts.filter (fun p => p.id != some argId)
           loading := false, error := none }

/-! ## Helper lemmas -/

@[simp]
theorem pick_some {α : Type} (v : α) (old : Option α) : pick (some v) old = some v := rfl

@[simp]
theorem pick_none {α : Type} (old : Option α) : pick none old = old := rfl

@[simp]
theorem pick_same {α : Type} (a : Option α) : pick a a = a := by
  cases a <;> rfl

theorem findById_none_iff (blogs : List Blog) (i : Nat) :
    findById blogs i = none ↔ countById blogs i = 0 := by
  induction blogs with
  | nil => simp [findById, countById]
  | cons b bs ih =>
    cases hpb : (b.mongoId == i) with
    | true => simp [findById, countById, List.find?, List.filter, hpb]
    | false =>
      simp only [findById, countById, List.find?, List.filter, hpb] at ih ⊢
      exact ih

theorem countById_eraseFirst (blogs : List Blog) (i : Nat)
    (h : countById blogs i = 1) : countById (eraseFirstById blogs i) i = 0 := by
  induction blogs with
  | nil => simp [countById, eraseFirstById]
  | cons b bs ih =>
    cases hpb : (b.mongoId == i) with
    | true =>
      simp only [countById, List.filter, hpb, List.length_cons] at h
      simp only [eraseFirstById, hpb, if_pos]
      simpa [countById] using h
    | false =>
      simp only [countById, List.filter, hpb] at h
      simp only [eraseFirstById, hpb]
      simp only [countById, List.filter, hpb, Bool.false_eq_true, if_neg]
      exact ih h

/-! ## Claim theorems -/

/-- Claim C2 counterexample: in server.js (lines 139-146; same code in
part_002), `GET /api/config` on an empty store answers the empty object: the
`title` key is absent (in particular not "UniUnity.space") and none of the
five top-level keys is present. -/
theorem c2_counterexample :
    (getConfigP2 none).title ≠ some "UniUnity.space" ∧
    (getConfigP2 none).banner = none ∧
    getConfigP2 none = emptyConfig := by
  decide

/-- Claim C2, amended: only the part_001 variant's `GET /api/config` returns
the hardcoded default on an empty store — title "UniUnity.space" and all five
top-level keys present — while the server.js and part_002 variants return the
empty object. -/
theorem c2_amended :
    getConfigP1 none = defaultConfigP1 ∧
    (getConfigP1 none).title = some "UniUnity.space" ∧
    ((getConfigP1 none).title.isSome = true ∧
     (getConfigP1 none).favicon.isSome = true ∧
     (getConfigP1 none).banner.isSome = true ∧
     (getConfigP1 none).seo.isSome = true ∧
     (getConfigP1 none).homepageAd.isSome = true) ∧
    getConfigP2 none = emptyConfig := by
  decide

/-- Claim C9: after a transport-successful `updateConfig(fields)`, the local
config is exactly the shallow merge of the previous config with the supplied
fields — each supplied top-level key replaces the prior value wholesale — and
the result does not depend on the document the server responded with, which
the code never reads. -/
theorem c9_updateConfig_local_merge (s : ClientState) (p : ClientConfigPatch)
    (r r' : Option ClientConfig) :
    (updateConfigOk s p r).config = spreadMerge s.config p ∧
    updateConfigOk s p r = updateConfigOk s p r' ∧
    (updateConfigOk s p r).config.title = p.title.getD s.config.title ∧
    (updateConfigOk s p r).config.favicon = p.favicon.getD s.config.favicon ∧
    (updateConfigOk s p r).config.banner = p.banner.getD s.config.banner ∧
    (updateConfigOk s p r).config.seo = p.seo.getD s.config.seo ∧
    (updateConfigOk s p r).config.homepageAd = p.homepageAd.getD s.config.homepageAd :=
  ⟨rfl, rfl, rfl, rfl, rfl, rfl, rfl⟩

/-- Claim C10: a successful `deleteBlogPost(id)` leaves `blogPosts` equal to
the previous list with exactly the entries whose `id` equals the argument
removed; entries carrying no `id` field (only a Mongo `_id`) are retained. -/
theorem c10_deleteBlogPost_filter (s : ClientState) (argId : String) :
    (deleteBlogPostOk s argId).blogPosts
      = s.blogPosts.filter (fun p => p.id != some argId) ∧
    (∀ p : ClientPost, p ∈ s.blogPosts → p.id = none →
      p ∈ (deleteBlogPostOk s argId).blogPosts) ∧
    (∀ p : ClientPost, p ∈ s.blogPosts → p.id = some argId →
      p ∉ (deleteBlogPostOk s argId).blogPosts) ∧
    (∀ p : ClientPost, p ∈ (deleteBlogPostOk s argId).blogPosts ↔
      (p ∈ s.blogPosts ∧ p.id ≠ some argId)) := by
  have hmem : ∀ p : ClientPost,
      p ∈ (deleteBlogPostOk s argId).blogPosts ↔
        (p ∈ s.blogPosts ∧ p.id ≠ some argId) := by
    intro p
    simp [deleteBlogPostOk, List.mem_filter]
  refine ⟨rfl, ?_, ?_, hmem⟩
  · intro p hp hid
    exact (hmem p).2 ⟨hp, by simp [hid]⟩
  · intro p hp hid hmem2
    exact ((hmem p).1 hmem2).2 hid

/-- A concrete client config used by the witnesses. -/
def cfgEx : ClientConfig :=
  { title := "T", favicon := "/f.ico"
    banner := { heading := "H", subtext := "S" }
    seo := { title := "ST", description := "SD", ogImage := "OG" }
    homepageAd := { text := "AT", image := "AI" } }

/-- A client post that carries a client-side `id`. -/
def c10post1 : ClientPost :=
  { id := some "a", mongoId := some "m1", title := "t1", content := "c1" }

/-- A client post that carries only a Mongo `_id` and no `id` field. -/
def c10post2 : ClientPost :=
  { id := none, mongoId := some "m2", title := "t2", content := "c2" }

/-- A concrete client state with both kinds of posts. -/
def c10state : ClientState :=
  { config := cfgEx, blogPosts := [c10post1, c10post2]
    loading := false, error := none }

/-- Claim C10 witness: deleting id "a" from the concrete state removes the
post with `id` "a" and retains the `_id`-only post. -/
theorem c10_witness :
    c10post2 ∈ (deleteBlogPostOk c10state "a").blogPosts ∧
    c10post1 ∉ (deleteBlogPostOk c10state "a").blogPosts := by
  refine ⟨?_, ?_⟩
  · exact (c10_deleteBlogPost_filter c10state "a").2.1 c10post2 (by decide) rfl
  · exact (c10_deleteBlogPost_filter c10state "a").2.2.1 c10post1 (by decide) rfl

/-- Claim C5 counterexample: in the first server.js variant, an authenticate
request with the password missing is not answered 400 and the credential
lookup is performed (the handler has no missing-field check; `bcrypt.compare`
then rejects and the catch block answers 500). -/
theorem c5_counterexample :
    (authV1 (seedAdmins []) (some "admin") none).status = 500 ∧
    (authV1 (seedAdmins []) (some "admin") none).status ≠ 400 ∧
    (authV1 (seedAdmins []) (some "admin") none).lookedUp = true := by
  decide

/-- Claim C5, amended: only the part_002 variant fails missing-field requests
with 400 before any lookup.  The server.js variant has no missing-field path
at all: on every request the lookup is performed and the answer is never 400 —
a missing password on the seeded store is answered 500, and a missing
identifier with the seeded default password is even answered 200 (Mongoose
drops the undefined key from the filter, so `findOne` returns the first
admin). -/
theorem c5_amended (admins : AdminColl) (u p : Option String)
    (h : u = none ∨ p = none) :
    authP2 admins u p = ⟨400, false⟩ ∧
    (∀ (admins2 : AdminColl) (u2 p2 : Option String),
      (authV1 admins2 u2 p2).lookedUp = true ∧
      (authV1 admins2 u2 p2).status ≠ 400) ∧
    authV1 (seedAdmins []) (some "admin") none = ⟨500, true⟩ ∧
    authV1 (seedAdmins []) none (some "UniUnity2025!") = ⟨200, true⟩ := by
  refine ⟨?_, ?_, by decide, by decide⟩
  · rcases h with h | h <;> subst h <;> simp [authP2, strTruthy]
  · intro admins2 u2 p2
    unfold authV1
    cases u2 with
    | none =>
      cases h2 : admins2.head? with
      | none => simp only [h2]; exact ⟨by trivial, by decide⟩
      | some a =>
        cases p2 with
        | none => simp only [h2]; exact ⟨by trivial, by decide⟩
        | some pw =>
          cases hb : bcompare pw a.2 <;>
            (simp only [h2, hb]; exact ⟨by trivial, by decide⟩)
    | some uv =>
      cases h2 : admins2.find? (fun a => a.1 == uv) with
      | none => simp only [h2]; exact ⟨by trivial, by decide⟩
      | some a =>
        cases p2 with
        | none => simp only [h2]; exact ⟨by trivial, by decide⟩
        | some pw =>
          cases hb : bcompare pw a.2 <;>
            (simp only [h2, hb]; exact ⟨by trivial, by decide⟩)

/-- Claim C5 witness: part_002 answers the concrete missing-password request
400 without a lookup, while the server.js variant looks the credential up and
answers 500 there. -/
theorem c5_witness :
    authP2 (seedAdmins []) (some "admin") none = ⟨400, false⟩ ∧
    authV1 (seedAdmins []) (some "admin") none = ⟨500, true⟩ := by
  have h := c5_amended (seedAdmins []) (some "admin") none (Or.inr rfl)
  exact ⟨h.1, h.2.2.1⟩

/-- Claim C6 counterexample: the first server.js variant performs no
validation — a create request with `title` missing is answered 200 (not 400)
and the document is silently saved. -/
theorem c6_counterexample :
    (postBlogV1 [] 0 none (some "some content") none none 7).1 = 200 ∧
    (postBlogV1 [] 0 none (some "some content") none none 7).1 ≠ 400 ∧
    (postBlogV1 [] 0 none (some "some content") none none 7).2.length = 1 := by
  decide

/-- Claim C6, amended: in the part_002 variant, `create` fails with 400 when
`title` or `content` is missing or empty and otherwise answers 201 with the
created post, whose `status` defaults to "published" and `createdAt` to the
creation time; in the server.js variants no validation is performed and the
success status is 200. -/
theorem c6_amended (blogs : List Blog) (freshId : Nat)
    (title content seoTitle seoDescription : Option String) (now : Nat) :
    (strTruthy title = false ∨ strTruthy content = false →
      postBlogP2 blogs freshId title content seoTitle seoDescription now
        = (400, blogs)) ∧
    (strTruthy title = true → strTruthy content = true →
      postBlogP2 blogs freshId title content seoTitle seoDescription now
        = (201, blogs ++ [{ mongoId := freshId, title := title, content := content
                            seoTitle := seoTitle, seoDescription := seoDescription
                            createdAt := now, status := "published" }])) := by
  constructor
  · intro h
    rcases h with h | h <;> simp [postBlogP2, h]
  · intro h1 h2
    simp [postBlogP2, h1, h2]

/-- Claim C6 witness: a missing title is rejected with 400 and the store is
unchanged; a valid pair is accepted with 201, status "published" and
`createdAt` equal to the supplied creation time. -/
theorem c6_witness :
    postBlogP2 [] 0 none (some "c") none none 7 = (400, []) ∧
    postBlogP2 [] 1 (some "t") (some "c") none none 9
      = (201, [{ mongoId := 1, title := some "t", content := some "c"
                 seoTitle := none, seoDescription := none
                 createdAt := 9, status := "published" }]) := by
  refine ⟨(c6_amended [] 0 none (some "c") none none 7).1 (Or.inl (by decide)), ?_⟩
  exact (c6_amended [] 1 (some "t") (some "c") none none 9).2 (by decide) (by decide)

/-- Claim C7 counterexample: the part_000 variant's delete handler ignores the
result of `findByIdAndDelete` and always answers 200 "Blog deleted" — deleting
a non-existent post (and hence the second of two deletes) is a silent success,
not a 404. -/
theorem c7_counterexample :
    deleteBlogV0 [] 5 = (200, []) ∧ (deleteBlogV0 [] 5).1 ≠ 404 := by
  decide

/-- Claim C7, amended: in the server.js and part_002 variants, `delete(id)`
answers 404 when no post with that id exists, and deleting an existing post
twice succeeds the first time and answers 404 the second time; the part_000
variant instead always answers 200 (silent success). -/
theorem c7_amended (blogs : List Blog) (i : Nat) :
    (findById blogs i = none → deleteBlogP2 blogs i = (404, blogs)) ∧
    (countById blogs i = 1 →
      (deleteBlogP2 blogs i).1 = 200 ∧
      deleteBlogP2 (deleteBlogP2 blogs i).2 i = (404, (deleteBlogP2 blogs i).2)) := by
  constructor
  · intro h
    simp [deleteBlogP2, h]
  · intro h
    have hne : findById blogs i ≠ none := by
      intro hn
      rw [(findById_none_iff blogs i).1 hn] at h
      exact absurd h (by decide)
    obtain ⟨b, hb⟩ := Option.ne_none_iff_exists'.1 hne
    have h200 : deleteBlogP2 blogs i = (200, eraseFirstById blogs i) := by
      simp [deleteBlogP2, hb]
    have hz : countById (eraseFirstById blogs i) i = 0 := countById_eraseFirst blogs i h
    have hnone : findById (eraseFirstById blogs i) i = none :=
      (findById_none_iff (eraseFirstById blogs i) i).2 hz
    rw [h200]
    exact ⟨rfl, by simp [deleteBlogP2, hnone]⟩

/-- A concrete blog post used by the C7 witness. -/
def c7blog : Blog :=
  { mongoId := 1, title := some "t", content := some "c", seoTitle := none
    seoDescription := none, createdAt := 0, status := "published" }

/-- Claim C7 witness: deleting from the empty store answers 404; on a
singleton store the first delete answers 200 and the second 404. -/
theorem c7_witness :
    deleteBlogP2 [] 5 = (404, []) ∧
    ((deleteBlogP2 [c7blog] 1).1 = 200 ∧
     deleteBlogP2 (deleteBlogP2 [c7blog] 1).2 1 = (404, (deleteBlogP2 [c7blog] 1).2)) :=
  ⟨(c7_amended [] 5).1 rfl, (c7_amended [c7blog] 1).2 (by decide)⟩

/-- bcrypt verification against a stored hash succeeds exactly on the hashed
password. -/
theorem bcompareOpt_hash (p q : String) :
    (bcompareOpt p (some (bhash q)) = true) ↔ p = q := by
  constructor
  · intro h
    have hq : bhash q = bhash p := by simpa [bcompareOpt, bcompare] using h
    exact (congrArg Hash.pw hq).symm
  · intro h
    subst h
    simp [bcompareOpt, bcompare]

/-- Claim C3: in the part_002 `POST /api/config` (same code in server.js lines
302-319), when a document exists whose stored `adminPassword` is the hash of
`q` and the request carries a truthy new password, the request is answered 401
exactly when the supplied `currentPassword || ''` does not bcrypt-verify
against the stored hash (that is, is not `q`); when no document exists, the
first-time password set succeeds without a `currentPassword` and stores the
hash of the new password. -/
theorem c3_password_gate (c : SiteConfig) (b : ConfigBody) (p q : String)
    (hstored : c.adminPassword = some (bhash q))
    (hnew : b.adminPassword = some p) (hp : p ≠ "") :
    (postConfigP2 (some c) b = UpdateResult.unauthorized ↔
      ¬ b.currentPassword.getD "" = q) ∧
    (∀ b2 : ConfigBody, b2.adminPassword = some p → b2.currentPassword = none →
      postConfigP2 none b2
        = UpdateResult.ok (setFields emptyConfig b2 (some (bhash p)))) := by
  have htr : strTruthy b.adminPassword = true := by
    simp [strTruthy, hnew, hp]
  constructor
  · cases hv : bcompareOpt (b.currentPassword.getD "") c.adminPassword with
    | true =>
      have hq : b.currentPassword.getD "" = q := by
        apply (bcompareOpt_hash _ _).1
        rw [← hstored]
        exact hv
      subst hq
      simp [postConfigP2, htr, hv]
    | false =>
      have hq : ¬ b.currentPassword.getD "" = q := by
        intro he
        have hc := (bcompareOpt_hash (b.currentPassword.getD "") q).2 he
        rw [← hstored, hv] at hc
        exact Bool.false_ne_true hc
      simp [postConfigP2, htr, hv, hq]
  · intro b2 h2 _
    have htr2 : strTruthy (some p) = true := by
      simp [strTruthy, hp]
    simp [postConfigP2, h2, htr2]

/-- A stored config document whose admin password hash is that of "OldPw". -/
def c3cfg : SiteConfig := { emptyConfig with adminPassword := some (bhash "OldPw") }

/-- A rotation request carrying a new password and no `currentPassword`. -/
def c3body : ConfigBody :=
  { title := none, favicon := none, banner := none, seo := none
    homepageAd := none, adminUsername := none
    adminPassword := some "NewPw", currentPassword := none }

/-- Claim C3 witness: against the stored document the rotation without
`currentPassword` is answered 401; against the empty store it succeeds and
stores the hash of the new password. -/
theorem c3_witness :
    postConfigP2 (some c3cfg) c3body = UpdateResult.unauthorized ∧
    postConfigP2 none c3body
      = UpdateResult.ok (setFields emptyConfig c3body (some (bhash "NewPw"))) := by
  have h := c3_password_gate c3cfg c3body "NewPw" "OldPw" rfl rfl (by decide)
  exact ⟨h.1.mpr (by decide), h.2 c3body rfl rfl⟩

/-- A stored config document whose admin password hash is that of
"OldPw2024". -/
def c4cfg : SiteConfig := { emptyConfig with adminPassword := some (bhash "OldPw2024") }

/-- A config update supplying only a new title and no password fields. -/
def c4body : ConfigBody :=
  { title := some "NewTitle", favicon := none, banner := none, seo := none
    homepageAd := none, adminUsername := none
    adminPassword := none, currentPassword := none }

/-- Claim C4 counterexample: in the first server.js variant (lines 148-160),
a config update that supplies no new admin password still overwrites the
stored hash — with the hash of the empty string — so the hash after the
update differs from the hash before it. -/
theorem c4_counterexample :
    (postConfigV1 (some c4cfg) c4body).adminPassword = some (bhash "") ∧
    (postConfigV1 (some c4cfg) c4body).adminPassword ≠ c4cfg.adminPassword := by
  decide

/-- Claim C4, amended: in the part_002 variant (and the second server.js
variant), an update supplying no new admin password retains the previously
stored hash unchanged and merges the supplied fields; in the first server.js
variant the stored hash is overwritten with the hash of the empty string. -/
theorem c4_amended (c : SiteConfig) (b : ConfigBody)
    (h : strTruthy b.adminPassword = false) :
    postConfigP2 (some c) b = UpdateResult.ok (setFields c b c.adminPassword) ∧
    (setFields c b c.adminPassword).adminPassword = c.adminPassword ∧
    (setFields c b c.adminPassword).title = pick b.title c.title ∧
    (setFields c b c.adminPassword).favicon = pick b.favicon c.favicon ∧
    (setFields c b c.adminPassword).banner = pick b.banner c.banner ∧
    (setFields c b c.adminPassword).seo = pick b.seo c.seo ∧
    (setFields c b c.adminPassword).homepageAd = pick b.homepageAd c.homepageAd ∧
    (setFields c b c.adminPassword).adminUsername = pick b.adminUsername c.adminUsername := by
  refine ⟨by simp [postConfigP2, h], ?_, rfl, rfl, rfl, rfl, rfl, rfl⟩
  show pick c.adminPassword c.adminPassword = c.adminPassword
  exact pick_same c.adminPassword

/-- Claim C4 witness: the concrete no-password update retains the stored hash
and merges the new title. -/
theorem c4_witness :
    postConfigP2 (some c4cfg) c4body
      = UpdateResult.ok (setFields c4cfg c4body c4cfg.adminPassword) ∧
    (setFields c4cfg c4body c4cfg.adminPassword).adminPassword = c4cfg.adminPassword ∧
    (setFields c4cfg c4body c4cfg.adminPassword).title = pick c4body.title c4cfg.title := by
  have h := c4_amended c4cfg c4body (by decide)
  exact ⟨h.1, h.2.1, h.2.2.1⟩

/-- The body of an update supplying only a new title. -/
def titleOnlyBody (x : String) : ConfigBody :=
  { title := some x, favicon := none, banner := none, seo := none
    homepageAd := none, adminUsername := none
    adminPassword := none, currentPassword := none }

/-- Claim C8: from every config store (absent document included), updating
with only a title and then reading back returns that title with every other
top-level field exactly as before — a partial merge of only the supplied
keys, not a full replace. -/
theorem c8_roundtrip (cur : Option SiteConfig) (x : String) :
    postConfigP2 cur (titleOnlyBody x)
      = UpdateResult.ok { getConfigP2 cur with title := some x } ∧
    getConfigP2 (some { getConfigP2 cur with title := some x })
      = { getConfigP2 cur with title := some x } ∧
    ({ getConfigP2 cur with title := some x }).title = some x := by
  refine ⟨?_, rfl, rfl⟩
  cases cur with
  | none => rfl
  | some c =>
    simp [postConfigP2, titleOnlyBody, strTruthy, setFields, getConfigP2]

/-- The freshly seeded server state: the seeded Admin collection and no
config document. -/
def c1State0 : ServerState := { admins := seedAdmins [], config := none }

/-- A password-rotation request carrying the new admin password "NewPass1". -/
def c1RotBody : ConfigBody :=
  { title := none, favicon := none, banner := none, seo := none
    homepageAd := none, adminUsername := none
    adminPassword := some "NewPass1", currentPassword := none }

/-- The state after the accepted rotation: the Admin collection is untouched
and the new hash sits on the SiteConfig document. -/
def c1State1 : ServerState :=
  { admins := seedAdmins []
    config := some (setFields emptyConfig c1RotBody (some (bhash "NewPass1"))) }

/-- Claim C1 counterexample: from the freshly seeded store, the rotation to
"NewPass1" via the Config Service is accepted, yet afterwards
authenticate("admin", "NewPass1") is answered 401 and
authenticate("admin", "UniUnity2025!") still succeeds — the rotation wrote
the hash to the SiteConfig document and never updated the Admin credential
that `/api/auth` reads. -/
theorem c1_counterexample :
    (authV1 c1State0.admins (some "admin") (some "UniUnity2025!")).status = 200 ∧
    postConfigP2State c1State0 c1RotBody = some c1State1 ∧
    (authV1 c1State1.admins (some "admin") (some "NewPass1")).status = 401 ∧
    (authV1 c1State1.admins (some "admin") (some "UniUnity2025!")).status = 200 := by
  decide

/-- Claim C1, amended: against a freshly seeded store,
authenticate("admin", "UniUnity2025!") succeeds before any rotation; but a
password rotation accepted by the Config Service stores the new hash on the
SiteConfig document and never touches the Admin credential, so afterwards
authenticate("admin", old password) still succeeds and
authenticate("admin", new password) fails whenever the new password differs
from the old one. -/
theorem c1_amended (s s' : ServerState) (b : ConfigBody) (p : String)
    (hseed : s.admins = seedAdmins [])
    (hp : b.adminPassword = some p) (hpne : p ≠ "")
    (hrot : postConfigP2State s b = some s') :
    (authV1 s'.admins (some "admin") (some "UniUnity2025!")).status = 200 ∧
    (p ≠ "UniUnity2025!" →
      (authV1 s'.admins (some "admin") (some p)).status = 401) ∧
    (∃ c', s'.config = some c' ∧ c'.adminPassword = some (bhash p)) := by
  have htr : strTruthy b.adminPassword = true := by
    simp [strTruthy, hp, hpne]
  have hnewhash : ∀ cfg : SiteConfig, postConfigP2 s.config b = UpdateResult.ok cfg →
      cfg.adminPassword = some (bhash p) := by
    intro cfg hres
    cases hsc : s.config with
    | none =>
      rw [hsc] at hres
      simp only [postConfigP2, htr, if_pos] at hres
      cases hres
      simp [setFields, hp]
    | some c0 =>
      rw [hsc] at hres
      simp only [postConfigP2, htr, if_pos] at hres
      cases hcv : bcompareOpt (b.currentPassword.getD "") c0.adminPassword with
      | true =>
        rw [hcv] at hres
        simp only [if_pos] at hres
        cases hres
        simp [setFields, hp]
      | false =>
        rw [hcv] at hres
        simp at hres
  unfold postConfigP2State at hrot
  cases hres : postConfigP2 s.config b with
  | unauthorized =>
    rw [hres] at hrot
    cases hrot
  | ok c =>
    rw [hres] at hrot
    cases hrot
    refine ⟨?_, ?_, c, rfl, hnewhash c hres⟩
    · show (authV1 s.admins (some "admin") (some "UniUnity2025!")).status = 200
      rw [hseed]
      decide
    · intro hne
      show (authV1 s.admins (some "admin") (some p)).status = 401
      rw [hseed]
      have hb : (bhash "UniUnity2025!" == bhash p) = false := by
        rw [beq_eq_false_iff_ne]
        intro hh
        exact hne ((congrArg Hash.pw hh).symm)
      simp [authV1, seedAdmins, bcompare, hb, List.find?]

/-- Claim C1 witness: the amended theorem at the concrete seeded store and the
accepted rotation to "NewPass1". -/
theorem c1_witness :
    (authV1 c1State1.admins (some "admin") (some "UniUnity2025!")).status = 200 ∧
    (authV1 c1State1.admins (some "admin") (some "NewPass1")).status = 401 := by
  have h := c1_amended c1State0 c1State1 c1RotBody "NewPass1" rfl rfl (by decide) (by decide)
  exact ⟨h.1, h.2.1 (by decide)⟩
